import Mathlib

/-!
Shallow embedding of the RS_MiTienda marketplace application
(src/models.py, src/main.py) for checking the natural-language
specification against the code.

Modelling conventions:
* Database rows (src/models.py) become Lean structures; the three tables
  become lists of rows inside `DB`, with explicit autoincrement counters
  (SQLite autoincrement starts at 1).
* `price` is a Python float in the code; the code never performs float
  arithmetic on it (it is only stored and, in the spec claims, compared
  with 0), so we model it by `Int`, on which those operations agree.
* The process-wide `sessions` dict is an association list; dict
  assignment is modelled by prepending (lookup takes the newest binding,
  matching overwrite semantics), `del` by filtering the key out.
* The image asset directory is a list of filenames; `os.remove` after an
  `os.path.exists` check is an erase, a file write is a prepend.
* Randomness (uuid4 tokens and filename prefixes) and the bcrypt hash
  are inputs passed to the operations.
* SQLAlchemy semantics for `db.delete(product)`: the relationship
  `Product.ratings` (src/models.py line 29) has no delete cascade, so at
  flush time SQLAlchemy de-associates the child rows by setting
  `ratings.product_id` to NULL; that column is NOT NULL
  (src/models.py line 37), so the flush fails with IntegrityError and
  nothing is committed. This is modelled by the `integrityError` branch
  of `delete_product`.
-/

namespace MiTienda

/-- A row of the `users` table (src/models.py, class User). -/
structure User where
  id : Nat
  username : String
  email : String
  hashed_password : String
  whatsapp : String
deriving DecidableEq, Repr

/-- A row of the `products` table (src/models.py, class Product). -/
structure Product where
  id : Nat
  name : String
  description : String
  price : Int
  stock : Int
  image : String
  owner_id : Nat
deriving DecidableEq, Repr

/-- A row of the `ratings` table (src/models.py, class Rating).
The table also carries `UniqueConstraint(user_id, product_id)`,
modelled in `dbInsertRating`. -/
structure Rating where
  id : Nat
  user_id : Nat
  product_id : Nat
deriving DecidableEq, Repr

/-- The relational store: the three tables plus autoincrement counters. -/
structure DB where
  users : List User
  products : List Product
  ratings : List Rating
  nextUserId : Nat
  nextProductId : Nat
  nextRatingId : Nat
deriving DecidableEq, Repr

/-- Whole application state: database, the process-wide `sessions` dict
(src/main.py line 30) and the `static/images` asset directory. -/
structure AppState where
  db : DB
  sessions : List (String × Nat)
  files : List String
deriving DecidableEq, Repr

/-- The state of a freshly started process over an empty database. -/
def initState : AppState :=
  { db := { users := [], products := [], ratings := [],
            nextUserId := 1, nextProductId := 1, nextRatingId := 1 },
    sessions := [], files := [] }

/-- Dict lookup in the `sessions` map; newest binding wins, matching
Python dict assignment which overwrites the key. -/
def lookupSession (sessions : List (String × Nat)) (tok : String) : Option Nat :=
  (sessions.find? (fun e => e.1 = tok)).map (·.2)

/-- src/main.py get_current_user: resolve the cookie token through the
`sessions` dict, then fetch the User row by id; anonymous otherwise. -/
def get_current_user (token : Option String) (s : AppState) : Option User :=
  match token with
  | none => none
  | some t =>
    match lookupSession s.sessions t with
    | none => none
    | some uid => s.db.users.find? (fun u => u.id = uid)

/-- An uploaded file: its client-side filename and its bytes. -/
structure UploadFile where
  filename : String
  content : List UInt8
deriving DecidableEq, Repr

inductive RegisterResult where
  /-- the register template re-rendered with the duplicate message -/
  | conflictMsg
  /-- 302 redirect home with the session cookie set -/
  | redirectHome (token : String)
deriving DecidableEq, Repr

/-- src/main.py register_user (lines 43-67). `hashed` is the result of
`pwd_context.hash(password)` and `token` the fresh uuid4, both passed in. -/
def register_user (s : AppState) (username email hashed whatsapp token : String) :
    AppState × RegisterResult :=
  if s.db.users.any (fun u => u.username = username || u.email = email) then
    (s, .conflictMsg)
  else
    let uid := s.db.nextUserId
    let user : User := ⟨uid, username, email, hashed, whatsapp⟩
    ({ s with
        db := { s.db with users := s.db.users ++ [user], nextUserId := uid + 1 },
        sessions := (token, uid) :: s.sessions },
     .redirectHome token)

inductive LoginResult where
  | badCreds
  | redirectHome (token : String)
deriving DecidableEq, Repr

/-- src/main.py login_user (lines 73-83). `verify` abstracts
`pwd_context.verify(password, -)` applied to the stored hash. -/
def login_user (s : AppState) (username : String) (verify : String → Bool)
    (token : String) : AppState × LoginResult :=
  match s.db.users.find? (fun u => u.username = username) with
  | none => (s, .badCreds)
  | some u =>
    if verify u.hashed_password then
      ({ s with sessions := (token, u.id) :: s.sessions }, .redirectHome token)
    else
      (s, .badCreds)

/-- src/main.py logout (lines 85-92): delete the token from the
`sessions` dict when present, always redirect home. -/
def logout (s : AppState) (token : Option String) : AppState :=
  match token with
  | none => s
  | some t =>
    if (lookupSession s.sessions t).isSome then
      { s with sessions := s.sessions.filter (fun e => e.1 ≠ t) }
    else s

inductive AddResult where
  /-- 302 redirect to /login: not authenticated -/
  | redirectLogin
  /-- the add_product template re-rendered with the no-image message -/
  | noImageMsg
  /-- 302 redirect home: product created -/
  | redirectHome
deriving DecidableEq, Repr

/-- src/main.py add_product (lines 122-156). `uuid` is the random
filename prefix. The only input validation is `if not image.filename`:
price, stock and the image bytes are stored as given. -/
def add_product (s : AppState) (cu : Option User) (name description : String)
    (price stock : Int) (image : UploadFile) (uuid : String) :
    AppState × AddResult :=
  match cu with
  | none => (s, .redirectLogin)
  | some u =>
    if image.filename = "" then
      (s, .noImageMsg)
    else
      let fname := uuid ++ "_" ++ image.filename
      let pid := s.db.nextProductId
      let p : Product := ⟨pid, name, description, price, stock, fname, u.id⟩
      ({ s with
          db := { s.db with
                  products := s.db.products ++ [p]
                  nextProductId := pid + 1 },
          files := fname :: s.files },
       .redirectHome)

inductive EditResult where
  /-- 302 redirect to /login: not authenticated -/
  | redirectLogin
  /-- HTTPException 404 "Producto no encontrado o no tienes permiso para editarlo" -/
  | http404
  /-- 302 redirect to the product page: edit applied -/
  | redirectProduct
deriving DecidableEq, Repr

/-- `os.remove` guarded by `os.path.exists`: erase the filename when
present, no-op otherwise. -/
def removeFile (files : List String) (f : String) : List String :=
  if f ∈ files then files.erase f else files

/-- src/main.py edit_product (lines 206-244). The query filters on both
the product id and `owner_id == current_user.id`, so absent and
not-owned collapse into the same 404. On success the four form fields
are assigned; when an upload with a non-empty filename is supplied the
old asset is removed (best-effort) and a new one written. -/
def edit_product (s : AppState) (pid : Nat) (cu : Option User)
    (name description : String) (price stock : Int)
    (image : Option UploadFile) (uuid : String) : AppState × EditResult :=
  match cu with
  | none => (s, .redirectLogin)
  | some u =>
    match s.db.products.find? (fun p => p.id = pid && p.owner_id = u.id) with
    | none => (s, .http404)
    | some p =>
      let base : Product :=
        { p with name := name, description := description,
                 price := price, stock := stock }
      match image with
      | some img =>
        if img.filename ≠ "" then
          let files1 := removeFile s.files p.image
          let newName := uuid ++ "_" ++ img.filename
          let p1 : Product := { base with image := newName }
          ({ s with
              db := { s.db with
                      products := s.db.products.map
                        (fun q => if q.id = p.id then p1 else q) },
              files := newName :: files1 },
           .redirectProduct)
        else
          ({ s with
              db := { s.db with
                      products := s.db.products.map
                        (fun q => if q.id = p.id then base else q) } },
           .redirectProduct)
      | none =>
        ({ s with
            db := { s.db with
                    products := s.db.products.map
                      (fun q => if q.id = p.id then base else q) } },
         .redirectProduct)

inductive DeleteResult where
  /-- 302 redirect to /login: not authenticated -/
  | redirectLogin
  /-- HTTPException 404 "Producto no encontrado o no tienes permiso para eliminarlo" -/
  | http404
  /-- unhandled sqlalchemy.exc.IntegrityError out of `db.commit()` -/
  | integrityError
  /-- 302 redirect home: product deleted -/
  | redirectHome
deriving DecidableEq, Repr

/-- src/main.py delete_product (lines 247-267). Ownership check as in
edit. The asset file is removed first (best-effort). Then
`db.delete(product); db.commit()`: because `Product.ratings` has no
delete cascade and `ratings.product_id` is NOT NULL, the flush raises
IntegrityError whenever any Rating references the product, and the
record deletion is rolled back (the file removal already happened). -/
def delete_product (s : AppState) (pid : Nat) (cu : Option User) :
    AppState × DeleteResult :=
  match cu with
  | none => (s, .redirectLogin)
  | some u =>
    match s.db.products.find? (fun p => p.id = pid && p.owner_id = u.id) with
    | none => (s, .http404)
    | some p =>
      let files1 := removeFile s.files p.image
      if s.db.ratings.any (fun r => r.product_id = p.id) then
        ({ s with files := files1 }, .integrityError)
      else
        ({ s with
            db := { s.db with
                    products := s.db.products.filter (fun q => q.id ≠ p.id) },
            files := files1 },
         .redirectHome)

inductive RateResult where
  /-- HTTPException 401: must log in to rate -/
  | unauth
  /-- HTTPException 404 "Producto no encontrado" -/
  | notFound
  /-- HTTPException 400 "Ya has puntuado este producto" -/
  | alreadyRated
  /-- unhandled sqlalchemy.exc.IntegrityError out of `db.commit()` -/
  | integrityError
  /-- 302 redirect to the product page: rating inserted -/
  | redirectProduct
deriving DecidableEq, Repr

/-- Outcome of the application-level checks of rate_product before the
insert is attempted. -/
inductive RatePre where
  | unauthP
  | notFoundP
  | alreadyRatedP
  /-- all checks passed for this user id -/
  | okP (uid : Nat)
deriving DecidableEq, Repr

/-- The three checks at the top of src/main.py rate_product
(lines 286-300): authentication, product existence, and the
application-level pre-check for an existing (user, product) rating. -/
def rate_check (db : DB) (cu : Option User) (pid : Nat) : RatePre :=
  match cu with
  | none => .unauthP
  | some u =>
    if (db.products.find? (fun p => p.id = pid)).isNone then .notFoundP
    else if db.ratings.any (fun r => r.user_id = u.id && r.product_id = pid) then
      .alreadyRatedP
    else .okP u.id

/-- The database commit of a Rating insert: the table-level
`UniqueConstraint(user_id, product_id)` (src/models.py line 42) rejects
a duplicate pair with IntegrityError, otherwise the row is appended. -/
def dbInsertRating (db : DB) (uid pid : Nat) : Except Unit DB :=
  if db.ratings.any (fun r => r.user_id = uid && r.product_id = pid) then
    .error ()
  else
    .ok { db with
          ratings := db.ratings ++ [⟨db.nextRatingId, uid, pid⟩]
          nextRatingId := db.nextRatingId + 1 }

/-- src/main.py rate_product (lines 284-307): the pre-checks, then the
insert. The route has no exception handler, so an IntegrityError from
the commit propagates out unhandled (it is unreachable when the route
runs alone, since the pre-check reads the same state). -/
def rate_product (s : AppState) (cu : Option User) (pid : Nat) :
    AppState × RateResult :=
  match rate_check s.db cu pid with
  | .unauthP => (s, .unauth)
  | .notFoundP => (s, .notFound)
  | .alreadyRatedP => (s, .alreadyRated)
  | .okP uid =>
    match dbInsertRating s.db uid pid with
    | .error _ => (s, .integrityError)
    | .ok db1 => ({ s with db := db1 }, .redirectProduct)

/-- Number of Rating rows referencing a product (`len(product.ratings)`). -/
def count_for (db : DB) (pid : Nat) : Nat :=
  (db.ratings.filter (fun r => r.product_id = pid)).length

/-- src/main.py read_products (lines 94-109): pair every product with
its rating count, then `list.sort(key=lambda x: x[1], reverse=True)`.
Python sort is a stable sort, and `reverse=True` keeps it stable for
the reversed comparison, so the output is the unique list that is
sorted descending by count and keeps ties in input order;
`List.mergeSort` with the descending comparison computes exactly that
list. -/
def read_products (s : AppState) : List (Product × Nat) :=
  (s.db.products.map (fun p => (p, count_for s.db p.id))).mergeSort
    (fun a b => b.2 ≤ a.2)

/-- The unsorted pairing built by read_products before the sort. -/
def productPairs (s : AppState) : List (Product × Nat) :=
  s.db.products.map (fun p => (p, count_for s.db p.id))

/-- The second of two interleaved rate calls for the same pair: its
pre-checks ran against the earlier state `s0` (before the other call
committed), while its insert executes against the later state `s1`.
`rate_product s cu pid` is exactly `rate_second_caller s s cu pid`. -/
def rate_second_caller (s0 s1 : AppState) (cu : Option User) (pid : Nat) :
    AppState × RateResult :=
  match rate_check s0.db cu pid with
  | .unauthP => (s1, .unauth)
  | .notFoundP => (s1, .notFound)
  | .alreadyRatedP => (s1, .alreadyRated)
  | .okP uid =>
    match dbInsertRating s1.db uid pid with
    | .error _ => (s1, .integrityError)
    | .ok db1 => ({ s1 with db := db1 }, .redirectProduct)

/-- One request handled by the application: each constructor is one of
the state-mutating routes of src/main.py, at arbitrary inputs, with the
current user resolved from the request cookie as in the code. -/
inductive Step : AppState → AppState → Prop where
  | register (s : AppState) (username email hashed whatsapp token : String) :
      Step s (register_user s username email hashed whatsapp token).1
  | login (s : AppState) (username : String) (verify : String → Bool)
      (token : String) :
      Step s (login_user s username verify token).1
  | logout (s : AppState) (token : Option String) :
      Step s (MiTienda.logout s token)
  | add (s : AppState) (tok : Option String) (name description : String)
      (price stock : Int) (image : UploadFile) (uuid : String) :
      Step s (add_product s (get_current_user tok s) name description
        price stock image uuid).1
  | edit (s : AppState) (pid : Nat) (tok : Option String)
      (name description : String) (price stock : Int)
      (image : Option UploadFile) (uuid : String) :
      Step s (edit_product s pid (get_current_user tok s) name description
        price stock image uuid).1
  | delete (s : AppState) (pid : Nat) (tok : Option String) :
      Step s (delete_product s pid (get_current_user tok s)).1
  | rate (s : AppState) (pid : Nat) (tok : Option String) :
      Step s (rate_product s (get_current_user tok s) pid).1

/-- States reachable from a freshly started process over an empty
database by any sequence of requests. -/
def Reachable (s : AppState) : Prop :=
  Relation.ReflTransGen Step initState s

/-- At most one Rating row per (user, product) pair: any two distinct
rows of the ratings table differ in user id or in product id. -/
def RatingsUnique (db : DB) : Prop :=
  db.ratings.Pairwise
    (fun r1 r2 => r1.user_id ≠ r2.user_id ∨ r1.product_id ≠ r2.product_id)

/-! Concrete fixtures for counterexamples and witnesses. -/

/-- Fixture: a first registered user. -/
def aliceU : User := ⟨1, "alice", "alice@example.com", "h1", "w1"⟩

/-- Fixture: a second registered user. -/
def bobU : User := ⟨2, "bob", "bob@example.com", "h2", "w2"⟩

/-- Fixture: a product owned by the first user. -/
def prodA : Product := ⟨1, "lamp", "a lamp", 10, 5, "aa_lamp.png", 1⟩

/-- Fixture state: two users, one product owned by user 1, no ratings. -/
def stateA : AppState :=
  { db := { users := [aliceU, bobU], products := [prodA], ratings := [],
            nextUserId := 3, nextProductId := 2, nextRatingId := 1 },
    sessions := [("t1", 1), ("t2", 2)], files := ["aa_lamp.png"] }

/-- Fixture state: as stateA, but user 2 has rated product 1. -/
def stateR : AppState :=
  { stateA with
      db := { stateA.db with ratings := [⟨1, 2, 1⟩], nextRatingId := 2 } }

/-- C1: the claim says that when the owner deletes a product that has at
least one rating, the deletion succeeds and the ratings are cascade
deleted. On the code this fails: `Product.ratings` carries no delete
cascade, so the flush tries to null the NOT NULL column
`ratings.product_id` and `db.commit()` raises IntegrityError. At the
concrete failing input (product 1 owned by user 1, rated by user 2, the
owner deletes), the request errors, the product record and the rating
row both survive, and only the asset file is gone. -/
theorem C1_delete_rated_product_errors :
    (delete_product stateR 1 (some aliceU)).2 = DeleteResult.integrityError ∧
    (delete_product stateR 1 (some aliceU)).1.db.products = [prodA] ∧
    (delete_product stateR 1 (some aliceU)).1.db.ratings = [⟨1, 2, 1⟩] ∧
    count_for (delete_product stateR 1 (some aliceU)).1.db 1 = 1 := by
  decide

/-- C2 counterexample: the claim says create fails with ValidationError
(without inserting) whenever price < 0, stock < 0 or the image bytes
are empty. At price = -5, stock = -3 and empty image bytes the code
accepts the request and inserts the product: the only check performed
by add_product is on the image filename. -/
theorem C2_counterexample :
    ((-5 : Int) < 0 ∧ (-3 : Int) < 0) ∧
    (add_product stateA (some aliceU) "n" "d" (-5) (-3)
        ⟨"a.png", []⟩ "bb").2 = AddResult.redirectHome ∧
    (add_product stateA (some aliceU) "n" "d" (-5) (-3)
        ⟨"a.png", []⟩ "bb").1.db.products =
      [prodA, ⟨2, "n", "d", -5, -3, "bb_a.png", 1⟩] := by
  decide

/-- C2 (amended): create fails only when the requester is anonymous
(redirect to login) or when the uploaded image filename is empty (error
message, nothing inserted); otherwise it succeeds and inserts the
product with the supplied price and stock unchecked — price >= 0,
stock >= 0 and non-emptiness of the image bytes are not validated. -/
theorem C2_add_product_checks (s : AppState) (name description : String)
    (price stock : Int) (image : UploadFile) (uuid : String) :
    (add_product s none name description price stock image uuid
        = (s, AddResult.redirectLogin)) ∧
    (∀ u : User, image.filename = "" →
        add_product s (some u) name description price stock image uuid
          = (s, AddResult.noImageMsg)) ∧
    (∀ u : User, image.filename ≠ "" →
        (add_product s (some u) name description price stock image uuid).2
            = AddResult.redirectHome ∧
        (add_product s (some u) name description price stock image uuid).1.db.products
            = s.db.products ++
              [⟨s.db.nextProductId, name, description, price, stock,
                uuid ++ "_" ++ image.filename, u.id⟩]) := by
  refine ⟨rfl, fun u h => ?_, fun u h => ?_⟩
  · simp [add_product, h]
  · simp [add_product, h]

/-- Witness for C2_add_product_checks at concrete inputs: an empty
filename is rejected, a non-empty one is accepted. -/
theorem C2_add_product_checks_witness :
    (add_product stateA (some aliceU) "n" "d" 3 4 ⟨"", []⟩ "bb"
        = (stateA, AddResult.noImageMsg)) ∧
    (add_product stateA (some aliceU) "n" "d" 3 4 ⟨"a.png", []⟩ "bb").2
        = AddResult.redirectHome :=
  ⟨(C2_add_product_checks stateA "n" "d" 3 4 ⟨"", []⟩ "bb").2.1 aliceU rfl,
   ((C2_add_product_checks stateA "n" "d" 3 4 ⟨"a.png", []⟩ "bb").2.2 aliceU
      (by decide)).1⟩

/-- C3 counterexample: the claim says every requester who is not the
owner, including the anonymous requester, gets the merged
Forbidden/NotFound signal. An anonymous edit or delete of an existing
product instead gets the redirect-to-login (Unauthenticated) response,
not the 404. -/
theorem C3_counterexample :
    (delete_product stateA 1 none).2 = DeleteResult.redirectLogin ∧
    (delete_product stateA 1 none).2 ≠ DeleteResult.http404 ∧
    (edit_product stateA 1 none "n" "d" 1 1 none "bb").2
        = EditResult.redirectLogin ∧
    (edit_product stateA 1 none "n" "d" 1 1 none "bb").2
        ≠ EditResult.http404 := by
  decide

/-- C3 (amended): for every authenticated requester who does not own
the product — including when no product with that id exists — update
and delete fail with the single merged Forbidden/NotFound 404 and leave
the state unchanged; the anonymous requester is instead redirected to
login, also with the state unchanged. -/
theorem C3_nonowner_rejected (s : AppState) (pid : Nat) (u : User)
    (name description : String) (price stock : Int)
    (image : Option UploadFile) (uuid : String)
    (h : ∀ p ∈ s.db.products, p.id = pid → p.owner_id ≠ u.id) :
    edit_product s pid (some u) name description price stock image uuid
        = (s, EditResult.http404) ∧
    delete_product s pid (some u) = (s, DeleteResult.http404) ∧
    edit_product s pid none name description price stock image uuid
        = (s, EditResult.redirectLogin) ∧
    delete_product s pid none = (s, DeleteResult.redirectLogin) := by
  have hf : s.db.products.find?
      (fun p => p.id = pid && p.owner_id = u.id) = none := by
    rw [List.find?_eq_none]
    intro p hp
    simp only [Bool.and_eq_true, decide_eq_true_eq, not_and]
    exact h p hp
  exact ⟨by simp [edit_product, hf], by simp [delete_product, hf], rfl, rfl⟩

/-- Witness for C3_nonowner_rejected: user 2 neither owns product 1 nor
may delete or edit it. -/
theorem C3_nonowner_rejected_witness :
    edit_product stateA 1 (some bobU) "n" "d" 1 1 none "bb"
        = (stateA, EditResult.http404) ∧
    delete_product stateA 1 (some bobU) = (stateA, DeleteResult.http404) :=
  ⟨(C3_nonowner_rejected stateA 1 bobU "n" "d" 1 1 none "bb" (by decide)).1,
   (C3_nonowner_rejected stateA 1 bobU "n" "d" 1 1 none "bb" (by decide)).2.1⟩

/-- C10: when two interleaved rate calls for the same (user, product)
pair both pass the application-level pre-check against the earlier
state and the first insert commits, the second insert violates the
storage-level unique constraint; because rate_product has no exception
handler, the IntegrityError propagates unhandled instead of being
mapped to the AlreadyRated response the claim requires. -/
theorem C10_second_caller_unhandled :
    rate_check stateA.db (some bobU) 1 = RatePre.okP 2 ∧
    dbInsertRating (rate_product stateA (some bobU) 1).1.db 2 1
        = Except.error () ∧
    (rate_second_caller stateA (rate_product stateA (some bobU) 1).1
        (some bobU) 1).2 = RateResult.integrityError ∧
    RateResult.integrityError ≠ RateResult.alreadyRated :=
  ⟨rfl, rfl, rfl, by decide⟩

/-- Helper: the pre-checks pass when the user is present, the product
exists and the user has not rated it. -/
theorem rate_check_ok (db : DB) (u : User) (pid : Nat)
    (hp : ∃ p ∈ db.products, p.id = pid)
    (hnr : ∀ r ∈ db.ratings, ¬(r.user_id = u.id ∧ r.product_id = pid)) :
    rate_check db (some u) pid = RatePre.okP u.id := by
  obtain ⟨p, hpmem, hpid⟩ := hp
  have h1 : (db.products.find? (fun p => p.id = pid)).isNone = false := by
    rw [Bool.eq_false_iff]
    intro hn
    rw [Option.isNone_iff_eq_none, List.find?_eq_none] at hn
    exact hn p hpmem (by simp [hpid])
  have h2 : db.ratings.any
      (fun r => r.user_id = u.id && r.product_id = pid) = false := by
    rw [List.any_eq_false]
    intro r hr
    simp only [Bool.and_eq_true, decide_eq_true_eq, not_and]
    exact fun ha hb => hnr r hr ⟨ha, hb⟩
  simp [rate_check, h1, h2]

/-- Helper: under the same conditions the whole route succeeds and
appends exactly one Rating row. -/
theorem rate_product_success (s : AppState) (u : User) (pid : Nat)
    (hp : ∃ p ∈ s.db.products, p.id = pid)
    (hnr : ∀ r ∈ s.db.ratings, ¬(r.user_id = u.id ∧ r.product_id = pid)) :
    rate_product s (some u) pid
      = ({ s with
            db := { s.db with
                    ratings := s.db.ratings ++ [⟨s.db.nextRatingId, u.id, pid⟩]
                    nextRatingId := s.db.nextRatingId + 1 } },
         RateResult.redirectProduct) := by
  have h2 : s.db.ratings.any
      (fun r => r.user_id = u.id && r.product_id = pid) = false := by
    rw [List.any_eq_false]
    intro r hr
    simp only [Bool.and_eq_true, decide_eq_true_eq, not_and]
    exact fun ha hb => hnr r hr ⟨ha, hb⟩
  rw [rate_product, rate_check_ok s.db u pid hp hnr]
  simp [dbInsertRating, h2]

/-- Helper: a Rating row for the pair makes the route return the 400
AlreadyRated response without touching the state. -/
theorem rate_product_already (s : AppState) (u : User) (pid : Nat)
    (hp : ∃ p ∈ s.db.products, p.id = pid)
    (hr : ∃ r ∈ s.db.ratings, r.user_id = u.id ∧ r.product_id = pid) :
    rate_product s (some u) pid = (s, RateResult.alreadyRated) := by
  obtain ⟨p, hpmem, hpid⟩ := hp
  have h1 : (s.db.products.find? (fun p => p.id = pid)).isNone = false := by
    rw [Bool.eq_false_iff]
    intro hn
    rw [Option.isNone_iff_eq_none, List.find?_eq_none] at hn
    exact hn p hpmem (by simp [hpid])
  have h2 : s.db.ratings.any
      (fun r => r.user_id = u.id && r.product_id = pid) = true := by
    rw [List.any_eq_true]
    obtain ⟨r, hrmem, hru, hrp⟩ := hr
    exact ⟨r, hrmem, by simp [hru, hrp]⟩
  simp [rate_product, rate_check, h1, h2]

/-- C4: rate fails with Unauthenticated for the anonymous requester,
with NotFound when no product has the id, and with AlreadyRated when a
Rating for the pair exists, each leaving the state unchanged; otherwise
it appends exactly one Rating row, the rating count of the product
grows by exactly one, and an immediately repeated call by the same user
fails with AlreadyRated. -/
theorem C4_rate_semantics (s : AppState) (u : User) (pid : Nat) :
    (rate_product s none pid = (s, RateResult.unauth)) ∧
    ((∀ p ∈ s.db.products, p.id ≠ pid) →
        rate_product s (some u) pid = (s, RateResult.notFound)) ∧
    ((∃ p ∈ s.db.products, p.id = pid) →
        (∃ r ∈ s.db.ratings, r.user_id = u.id ∧ r.product_id = pid) →
        rate_product s (some u) pid = (s, RateResult.alreadyRated)) ∧
    ((∃ p ∈ s.db.products, p.id = pid) →
        (∀ r ∈ s.db.ratings, ¬(r.user_id = u.id ∧ r.product_id = pid)) →
        (rate_product s (some u) pid).2 = RateResult.redirectProduct ∧
        (rate_product s (some u) pid).1.db.ratings
            = s.db.ratings ++ [⟨s.db.nextRatingId, u.id, pid⟩] ∧
        count_for (rate_product s (some u) pid).1.db pid
            = count_for s.db pid + 1 ∧
        rate_product (rate_product s (some u) pid).1 (some u) pid
            = ((rate_product s (some u) pid).1, RateResult.alreadyRated)) := by
  refine ⟨rfl, fun hnone => ?_, fun hp hr => rate_product_already s u pid hp hr,
    fun hp hnr => ?_⟩
  · have h1 : (s.db.products.find? (fun p => p.id = pid)).isNone = true := by
      rw [Option.isNone_iff_eq_none, List.find?_eq_none]
      intro p hpmem
      simp only [decide_eq_true_eq]
      exact hnone p hpmem
    simp [rate_product, rate_check, h1]
  · rw [rate_product_success s u pid hp hnr]
    refine ⟨rfl, rfl, ?_, ?_⟩
    · simp [count_for, List.filter_append]
    · refine rate_product_already _ u pid ?_ ?_
      · exact hp
      · exact ⟨⟨s.db.nextRatingId, u.id, pid⟩, by simp, rfl, rfl⟩

/-- Witness for C4_rate_semantics: user 2 and product 1 in the fixture
state with no ratings — the success branch applies, and the repeated
call is rejected. -/
theorem C4_rate_semantics_witness :
    (rate_product stateA (some bobU) 1).2 = RateResult.redirectProduct ∧
    count_for (rate_product stateA (some bobU) 1).1.db 1
        = count_for stateA.db 1 + 1 ∧
    rate_product (rate_product stateA (some bobU) 1).1 (some bobU) 1
        = ((rate_product stateA (some bobU) 1).1, RateResult.alreadyRated) :=
  have h := (C4_rate_semantics stateA bobU 1).2.2.2
    ⟨prodA, by decide, by decide⟩ (by decide)
  ⟨h.1, h.2.2.1, h.2.2.2⟩

set_option linter.unusedVariables false in
/-- C8: no self-rating restriction is enforced: an authenticated user
who owns the product and has not yet rated it succeeds in rating it,
the ownership hypothesis notwithstanding (the route never reads the
owner column, so the hypothesis goes unused). -/
theorem C8_owner_can_rate (s : AppState) (u : User) (pid : Nat) (p : Product)
    (hp : p ∈ s.db.products) (hid : p.id = pid) (hown : p.owner_id = u.id)
    (hnr : ∀ r ∈ s.db.ratings, ¬(r.user_id = u.id ∧ r.product_id = pid)) :
    (rate_product s (some u) pid).2 = RateResult.redirectProduct ∧
    (rate_product s (some u) pid).1.db.ratings
        = s.db.ratings ++ [⟨s.db.nextRatingId, u.id, pid⟩] := by
  rw [rate_product_success s u pid ⟨p, hp, hid⟩ hnr]
  exact ⟨rfl, rfl⟩

/-- Witness for C8_owner_can_rate: user 1 rates product 1, which user 1
owns, and the call succeeds. -/
theorem C8_owner_can_rate_witness :
    (rate_product stateA (some aliceU) 1).2 = RateResult.redirectProduct :=
  (C8_owner_can_rate stateA aliceU 1 prodA (by decide) rfl rfl
    (by intro r hr; simp [stateA] at hr)).1

/-- C7: registering with a taken username or a taken email fails with
the conflict message and creates no user and no session; with both
free, registration appends exactly the new user to the users table and
returns a session token that resolves to that user. -/
theorem C7_register (s : AppState)
    (username email hashed whatsapp token : String) :
    ((∃ u ∈ s.db.users, u.username = username ∨ u.email = email) →
        register_user s username email hashed whatsapp token
          = (s, RegisterResult.conflictMsg)) ∧
    ((∀ u ∈ s.db.users, u.username ≠ username ∧ u.email ≠ email) →
        (register_user s username email hashed whatsapp token).2
            = RegisterResult.redirectHome token ∧
        (register_user s username email hashed whatsapp token).1.db.users
            = s.db.users
              ++ [⟨s.db.nextUserId, username, email, hashed, whatsapp⟩] ∧
        ((∀ u ∈ s.db.users, u.id ≠ s.db.nextUserId) →
            get_current_user (some token)
                (register_user s username email hashed whatsapp token).1
              = some ⟨s.db.nextUserId, username, email, hashed, whatsapp⟩)) := by
  constructor
  · rintro ⟨u, hu, hor⟩
    have h1 : s.db.users.any
        (fun u => u.username = username || u.email = email) = true := by
      rw [List.any_eq_true]
      refine ⟨u, hu, ?_⟩
      cases hor with
      | inl h => simp [h]
      | inr h => simp [h]
    simp [register_user, h1]
  · intro hfree
    have h1 : s.db.users.any
        (fun u => u.username = username || u.email = email) = false := by
      rw [List.any_eq_false]
      intro u hu
      simp only [Bool.or_eq_true, decide_eq_true_eq, not_or]
      exact hfree u hu
    have hreg : register_user s username email hashed whatsapp token
        = ({ s with
              db := { s.db with
                      users := s.db.users
                        ++ [⟨s.db.nextUserId, username, email, hashed, whatsapp⟩]
                      nextUserId := s.db.nextUserId + 1 }
              sessions := (token, s.db.nextUserId) :: s.sessions },
           RegisterResult.redirectHome token) := by
      simp [register_user, h1]
    rw [hreg]
    refine ⟨rfl, rfl, fun hfresh => ?_⟩
    have hn : s.db.users.find?
        (fun u => u.id = s.db.nextUserId) = none := by
      rw [List.find?_eq_none]
      intro u hu
      simpa using hfresh u hu
    simp [get_current_user, lookupSession, List.find?_append, hn, List.find?]

/-- Witness for C7_register: in the fixture state the username is taken
(conflict), and over the empty initial state registration succeeds and
the token resolves to the created user. -/
theorem C7_register_witness :
    register_user stateA "alice" "x@y.z" "h9" "w9" "t9"
        = (stateA, RegisterResult.conflictMsg) ∧
    get_current_user (some "t0")
        (register_user initState "carol" "c@y.z" "h0" "w0" "t0").1
      = some ⟨1, "carol", "c@y.z", "h0", "w0"⟩ :=
  ⟨(C7_register stateA "alice" "x@y.z" "h9" "w9" "t9").1
      ⟨aliceU, by decide, Or.inl rfl⟩,
   ((C7_register initState "carol" "c@y.z" "h0" "w0" "t0").2
      (by intro u hu; simp [initState] at hu)).2.2
      (by intro u hu; simp [initState] at hu)⟩

/-- Helper: in a table whose rows have pairwise distinct ids, two
member rows with the same id are the same row. -/
theorem eq_of_mem_of_id_eq (l : List Product)
    (hids : l.Pairwise (fun a b => a.id ≠ b.id)) (p q : Product)
    (hp : p ∈ l) (hq : q ∈ l) (h : q.id = p.id) : q = p := by
  induction l with
  | nil => cases hp
  | cons a t ih =>
    rcases List.mem_cons.mp hp with hpa | hpt
    · rcases List.mem_cons.mp hq with hqa | hqt
      · rw [hqa, hpa]
      · exact absurd (hpa ▸ h)
          (Ne.symm (List.rel_of_pairwise_cons hids hqt))
    · rcases List.mem_cons.mp hq with hqa | hqt
      · exact absurd (hqa ▸ h) (List.rel_of_pairwise_cons hids hpt)
      · exact ih hids.of_cons hpt hqt

/-- C9: a successful update by the owner rewrites the products table by
a pointwise map that is the identity on every row whose id differs from
the edited one; the edited row keeps its id and its owner and takes the
four supplied field values; the image reference changes exactly when an
upload with a non-empty filename is supplied; users, ratings and
sessions are untouched. -/
theorem C9_edit_frame (s : AppState) (pid : Nat) (u : User)
    (name description : String) (price stock : Int)
    (image : Option UploadFile) (uuid : String) (p : Product)
    (hfind : s.db.products.find?
        (fun q => q.id = pid && q.owner_id = u.id) = some p)
    (hids : s.db.products.Pairwise (fun a b => a.id ≠ b.id)) :
    (edit_product s pid (some u) name description price stock image uuid).2
        = EditResult.redirectProduct ∧
    (edit_product s pid (some u) name description price stock image uuid).1.db.users
        = s.db.users ∧
    (edit_product s pid (some u) name description price stock image uuid).1.db.ratings
        = s.db.ratings ∧
    (edit_product s pid (some u) name description price stock image uuid).1.sessions
        = s.sessions ∧
    (∀ q ∈ s.db.products, q.id = p.id → q = p) ∧
    ∃ g : Product → Product,
      (edit_product s pid (some u) name description price stock image uuid).1.db.products
          = s.db.products.map g ∧
      (∀ q : Product, q.id ≠ p.id → g q = q) ∧
      ((g p).id = p.id ∧ (g p).owner_id = p.owner_id ∧ (g p).name = name ∧
        (g p).description = description ∧ (g p).price = price ∧
        (g p).stock = stock) ∧
      ((image = none ∨ ∃ img, image = some img ∧ img.filename = "") →
          (g p).image = p.image) ∧
      (∀ img, image = some img → img.filename ≠ "" →
          (g p).image = uuid ++ "_" ++ img.filename) := by
  have hsame : ∀ q ∈ s.db.products, q.id = p.id → q = p :=
    fun q hq h =>
      eq_of_mem_of_id_eq s.db.products hids p q
        (List.mem_of_find?_eq_some hfind) hq h
  cases image with
  | none =>
    refine ⟨by simp [edit_product, hfind], by simp [edit_product, hfind],
      by simp [edit_product, hfind], by simp [edit_product, hfind], hsame,
      ⟨fun q => if q.id = p.id then
          { p with name := name, description := description,
                   price := price, stock := stock } else q,
        by simp [edit_product, hfind], fun q hq => if_neg hq, ?_, ?_, ?_⟩⟩
    · simp
    · intro _
      simp
    · intro img h
      cases h
  | some img =>
    by_cases hfn : img.filename = ""
    · have hcond : ¬(img.filename ≠ "") := by simp [hfn]
      refine ⟨by simp [edit_product, hfind, hcond],
        by simp [edit_product, hfind, hcond],
        by simp [edit_product, hfind, hcond],
        by simp [edit_product, hfind, hcond], hsame,
        ⟨fun q => if q.id = p.id then
            { p with name := name, description := description,
                     price := price, stock := stock } else q,
          by simp [edit_product, hfind, hcond], fun q hq => if_neg hq,
          ?_, ?_, ?_⟩⟩
      · simp
      · intro _
        simp
      · intro img2 h2 hne
        cases h2
        exact absurd hfn hne
    · refine ⟨by simp [edit_product, hfind, hfn],
        by simp [edit_product, hfind, hfn],
        by simp [edit_product, hfind, hfn],
        by simp [edit_product, hfind, hfn], hsame,
        ⟨fun q => if q.id = p.id then
            { p with name := name, description := description,
                     price := price, stock := stock,
                     image := uuid ++ "_" ++ img.filename } else q,
          ?_, fun q hq => if_neg hq, ?_, ?_, ?_⟩⟩
      · simp only [edit_product, hfind, hfn, ne_eq, not_false_eq_true,
          if_true]
      · simp
      · rintro (h | ⟨img2, h2, hfn2⟩)
        · cases h
        · cases h2
          exact absurd hfn2 hfn
      · intro img2 h2 _
        cases h2
        simp

/-- Witness for C9_edit_frame: user 1 edits product 1 with no new
image; the route succeeds and ratings survive unchanged. -/
theorem C9_edit_frame_witness :
    (edit_product stateA 1 (some aliceU) "n2" "d2" 7 8 none "cc").2
        = EditResult.redirectProduct ∧
    (edit_product stateA 1 (some aliceU) "n2" "d2" 7 8 none "cc").1.db.ratings
        = stateA.db.ratings :=
  have h := C9_edit_frame stateA 1 aliceU "n2" "d2" 7 8 none "cc" prodA
    (by decide) (by decide)
  ⟨h.1, h.2.2.1⟩

/-- Fixture: a second product, owned by user 2, for the ranker. -/
def prodB : Product := ⟨2, "mug", "a mug", 3, 2, "cc_mug.png", 2⟩

/-- Fixture state: two products, neither rated, for the ranker. -/
def stateTwo : AppState :=
  { db := { users := [aliceU, bobU], products := [prodA, prodB], ratings := [],
            nextUserId := 3, nextProductId := 3, nextRatingId := 1 },
    sessions := [], files := ["aa_lamp.png", "cc_mug.png"] }

/-- C6: the listing route returns a permutation of the product/count
pairs that is sorted by rating count descending and stable — any two
pairs with equal counts keep the relative order they had in the
products table — and the output is a function of the products and
ratings tables alone, so repeated invocations on unchanged data give
the same ordering. -/
theorem C6_rank_stable_desc (s : AppState) :
    (read_products s).Perm (productPairs s) ∧
    List.Pairwise (fun a b : Product × Nat => b.2 ≤ a.2) (read_products s) ∧
    (∀ x y : Product × Nat, List.Sublist [x, y] (productPairs s) →
        x.2 = y.2 → List.Sublist [x, y] (read_products s)) ∧
    (∀ s' : AppState, s'.db.products = s.db.products →
        s'.db.ratings = s.db.ratings → read_products s' = read_products s) := by
  refine ⟨List.mergeSort_perm _ _, ?_, ?_, ?_⟩
  · have h : (List.mergeSort (productPairs s)
        (fun a b => b.2 ≤ a.2)).Pairwise
        (fun a b : Product × Nat => (decide (b.2 ≤ a.2)) = true) :=
      List.sorted_mergeSort
        (fun a b c hab hbc => by
          simp only [decide_eq_true_eq] at hab hbc ⊢
          omega)
        (fun a b => by
          simp only [Bool.or_eq_true, decide_eq_true_eq]
          omega)
        (productPairs s)
    exact h.imp (fun hab => by simpa using hab)
  · intro x y hxy hcount
    have hpair : List.Pairwise
        (fun a b : Product × Nat => (decide (b.2 ≤ a.2)) = true) [x, y] := by
      simp [hcount]
    exact List.sublist_mergeSort
      (fun a b c hab hbc => by
        simp only [decide_eq_true_eq] at hab hbc ⊢
        omega)
      (fun a b => by
        simp only [Bool.or_eq_true, decide_eq_true_eq]
        omega)
      hpair hxy
  · intro s' h1 h2
    simp only [read_products, count_for, h1, h2]

/-- Witness for C6_rank_stable_desc: in the two-product fixture both
products have count 0 and the ranker keeps their catalog order. -/
theorem C6_rank_stable_desc_witness :
    List.Sublist [(prodA, 0), (prodB, 0)] (read_products stateTwo) :=
  (C6_rank_stable_desc stateTwo).2.2.1 (prodA, 0) (prodB, 0)
    (List.Sublist.refl _) rfl

/-- Helper: registration never touches the ratings table. -/
theorem register_user_ratings (s : AppState) (a b c d e : String) :
    (register_user s a b c d e).1.db.ratings = s.db.ratings := by
  unfold register_user
  split <;> rfl

/-- Helper: login never touches the ratings table. -/
theorem login_user_ratings (s : AppState) (un : String)
    (v : String → Bool) (t : String) :
    (login_user s un v t).1.db.ratings = s.db.ratings := by
  unfold login_user
  cases s.db.users.find? (fun u => u.username = un) with
  | none => rfl
  | some u =>
    dsimp only
    split <;> rfl

/-- Helper: logout never touches the ratings table. -/
theorem logout_ratings (s : AppState) (t : Option String) :
    (logout s t).db.ratings = s.db.ratings := by
  unfold logout
  cases t with
  | none => rfl
  | some t =>
    dsimp only
    split <;> rfl

/-- Helper: product creation never touches the ratings table. -/
theorem add_product_ratings (s : AppState) (cu : Option User)
    (n d : String) (pr st : Int) (img : UploadFile) (uu : String) :
    (add_product s cu n d pr st img uu).1.db.ratings = s.db.ratings := by
  unfold add_product
  cases cu with
  | none => rfl
  | some u =>
    dsimp only
    split <;> rfl

/-- Helper: product edit never touches the ratings table. -/
theorem edit_product_ratings (s : AppState) (pid : Nat) (cu : Option User)
    (n d : String) (pr st : Int) (img : Option UploadFile) (uu : String) :
    (edit_product s pid cu n d pr st img uu).1.db.ratings = s.db.ratings := by
  unfold edit_product
  cases cu with
  | none => rfl
  | some u =>
    dsimp only
    cases s.db.products.find? (fun p => p.id = pid && p.owner_id = u.id) with
    | none => rfl
    | some p =>
      dsimp only
      cases img with
      | none => rfl
      | some i =>
        dsimp only
        split <;> rfl

/-- Helper: product deletion never touches the ratings table — when
ratings reference the product the commit fails, and when none do there
is nothing to cascade. -/
theorem delete_product_ratings (s : AppState) (pid : Nat) (cu : Option User) :
    (delete_product s pid cu).1.db.ratings = s.db.ratings := by
  unfold delete_product
  cases cu with
  | none => rfl
  | some u =>
    dsimp only
    cases s.db.products.find? (fun p => p.id = pid && p.owner_id = u.id) with
    | none => rfl
    | some p =>
      dsimp only
      split <;> rfl

/-- Helper: the rate route preserves the uniqueness of rating pairs:
it only ever appends a row whose pair passed the duplicate check. -/
theorem rate_product_preserves_unique (s : AppState) (cu : Option User)
    (pid : Nat) (h : RatingsUnique s.db) :
    RatingsUnique (rate_product s cu pid).1.db := by
  unfold rate_product
  cases rate_check s.db cu pid with
  | unauthP => exact h
  | notFoundP => exact h
  | alreadyRatedP => exact h
  | okP uid =>
    dsimp only
    by_cases hany : s.db.ratings.any
        (fun r => r.user_id = uid && r.product_id = pid) = true
    · rw [show dbInsertRating s.db uid pid = Except.error () from by
        simp [dbInsertRating, hany]]
      exact h
    · rw [show dbInsertRating s.db uid pid
          = Except.ok { s.db with
              ratings := s.db.ratings ++ [⟨s.db.nextRatingId, uid, pid⟩]
              nextRatingId := s.db.nextRatingId + 1 } from by
        simp [dbInsertRating, hany]]
      unfold RatingsUnique at h ⊢
      rw [List.pairwise_append]
      refine ⟨h, List.pairwise_singleton _ _, ?_⟩
      intro r hr r2 hr2
      rw [List.mem_singleton] at hr2
      subst hr2
      rw [Bool.not_eq_true, List.any_eq_false] at hany
      have := hany r hr
      simp only [Bool.and_eq_true, decide_eq_true_eq, not_and] at this
      by_cases hu : r.user_id = uid
      · exact Or.inr (this hu)
      · exact Or.inl hu

/-- C5: every request of the system preserves the at-most-one-rating
per (user, product) invariant, and consequently every state reachable
from a fresh process over an empty database satisfies it. -/
theorem C5_rating_pair_unique :
    (∀ s s2, Step s s2 → RatingsUnique s.db → RatingsUnique s2.db) ∧
    (∀ s, Reachable s → RatingsUnique s.db) := by
  have hstep : ∀ s s2, Step s s2 → RatingsUnique s.db → RatingsUnique s2.db := by
    intro s s2 hst h
    cases hst with
    | register a b c d e =>
      unfold RatingsUnique at h ⊢
      rw [register_user_ratings]
      exact h
    | login un v t =>
      unfold RatingsUnique at h ⊢
      rw [login_user_ratings]
      exact h
    | logout t =>
      unfold RatingsUnique at h ⊢
      rw [logout_ratings]
      exact h
    | add tok n d pr st img uu =>
      unfold RatingsUnique at h ⊢
      rw [add_product_ratings]
      exact h
    | edit pid tok n d pr st img uu =>
      unfold RatingsUnique at h ⊢
      rw [edit_product_ratings]
      exact h
    | delete pid tok =>
      unfold RatingsUnique at h ⊢
      rw [delete_product_ratings]
      exact h
    | rate pid tok =>
      exact rate_product_preserves_unique s (get_current_user tok s) pid h
  refine ⟨hstep, fun s hr => ?_⟩
  induction hr with
  | refl => exact List.Pairwise.nil
  | tail hsteps hstep2 ih => exact hstep _ _ hstep2 ih

/-- Witness for C5_rating_pair_unique: the initial state is reachable
and satisfies the invariant. -/
theorem C5_rating_pair_unique_witness : RatingsUnique initState.db :=
  C5_rating_pair_unique.2 initState Relation.ReflTransGen.refl

end MiTienda
